import Mathlib

/-!
Verification of the pinhole-camera value types exposed by
`src/python/cupoch_pybind/camera/camera.cpp`.

The binding shim in the repository exposes `PinholeCameraIntrinsic`,
`PinholeCameraIntrinsicParameters` and `PinholeCameraParameters` from the
native `cupoch::camera` library.  The native implementation
(`cupoch/camera/pinhole_camera_intrinsic.h` / `.cpp`) is not part of the
repository snapshot, so the value types and their operations are modelled
from the specification; the `__repr__` lambda, which is present in the
binding source, is embedded directly from it.  Matrix entries are modelled
as rationals (`ℚ`): every constant involved is a finite decimal literal and
all properties at stake are exact equalities of those literals.
-/

namespace Cupoch

/-- A row-major 3×3 real matrix, one field per entry. -/
structure Mat3 where
  a00 : ℚ
  a01 : ℚ
  a02 : ℚ
  a10 : ℚ
  a11 : ℚ
  a12 : ℚ
  a20 : ℚ
  a21 : ℚ
  a22 : ℚ
deriving DecidableEq, Repr

/-- The 3×3 identity matrix. -/
def Mat3.identity : Mat3 := ⟨1, 0, 0, 0, 1, 0, 0, 0, 1⟩

/-- A row-major 4×4 real matrix, one field per entry. -/
structure Mat4 where
  b00 : ℚ
  b01 : ℚ
  b02 : ℚ
  b03 : ℚ
  b10 : ℚ
  b11 : ℚ
  b12 : ℚ
  b13 : ℚ
  b20 : ℚ
  b21 : ℚ
  b22 : ℚ
  b23 : ℚ
  b30 : ℚ
  b31 : ℚ
  b32 : ℚ
  b33 : ℚ
deriving DecidableEq, Repr

/-- The 4×4 identity matrix. -/
def Mat4.identity : Mat4 :=
  ⟨1, 0, 0, 0, 0, 1, 0, 0, 0, 0, 1, 0, 0, 0, 0, 1⟩

/-- Modelled from the spec: the native `camera::PinholeCameraIntrinsic`
value type (its header is not in the snapshot; the bindings expose the
fields `width_`, `height_`, `intrinsic_matrix_` as read-write).  `width`
and `height` are machine integers in the binding (`int`), modelled as
`ℤ`; the matrix is the 3×3 intrinsic matrix. -/
structure PinholeCameraIntrinsic where
  width_ : ℤ
  height_ : ℤ
  intrinsic_matrix_ : Mat3
deriving DecidableEq, Repr

/-- Modelled from the spec: "Default construction — produces an instance
with `width = height = 0` and `intrinsic_matrix = I₃`." -/
def PinholeCameraIntrinsic.default : PinholeCameraIntrinsic :=
  ⟨0, 0, Mat3.identity⟩

/-- Modelled from the spec: `set_intrinsics(w, h, fx, fy, cx, cy)` "sets
the matrix to the canonical form above with skew 0, and stores the
extent", in place; modelled functionally as returning the updated value.
The previous state is wholly overwritten. -/
def PinholeCameraIntrinsic.SetIntrinsics (_c : PinholeCameraIntrinsic)
    (w h : ℤ) (fx fy cx cy : ℚ) : PinholeCameraIntrinsic :=
  ⟨w, h, ⟨fx, 0, cx, 0, fy, cy, 0, 0, 1⟩⟩

/-- Modelled from the spec: the parameterized constructor
`PinholeCameraIntrinsic(w, h, fx, fy, cx, cy)`, "identical semantics to"
`set_intrinsics` applied to a fresh object. -/
def PinholeCameraIntrinsic.mk6 (w h : ℤ) (fx fy cx cy : ℚ) :
    PinholeCameraIntrinsic :=
  PinholeCameraIntrinsic.default.SetIntrinsics w h fx fy cx cy

/-- The closed preset enumeration exposed by the bindings, with its three
members in binding order. -/
inductive PinholeCameraIntrinsicParameters where
  | PrimeSenseDefault
  | Kinect2DepthCameraDefault
  | Kinect2ColorCameraDefault
deriving DecidableEq, Repr

/-- Modelled from the spec: preset construction "copies the factory
constants for that preset into the instance", via the frozen preset
catalog of §6.  For `Kinect2DepthCameraDefault` the spec's table row
(fx = 254.878, fy = 205.395, cx = cy = 365.456) contradicts the spec's own
starred footnote, which pins the constants to "the well-known published
factory calibration used by the de-facto reference pinhole-camera library
in this ecosystem" and forbids re-deriving them; that published
calibration is `SetIntrinsics(512, 424, 365.456, 365.456, 254.878,
205.395)` (focal lengths 365.456, principal point (254.878, 205.395)).
The footnote is the spec's explicit priority for these constants, so the
model adopts the published calibration; the table row transposes the
focal-length and principal-point columns. -/
def PinholeCameraIntrinsic.fromPreset :
    PinholeCameraIntrinsicParameters → PinholeCameraIntrinsic
  | .PrimeSenseDefault =>
      PinholeCameraIntrinsic.mk6 640 480 525.0 525.0 319.5 239.5
  | .Kinect2DepthCameraDefault =>
      PinholeCameraIntrinsic.mk6 512 424 365.456 365.456 254.878 205.395
  | .Kinect2ColorCameraDefault =>
      PinholeCameraIntrinsic.mk6 1920 1080 1059.9413 1059.9413 959.5 539.5

/-- Modelled from the spec: `get_focal_length()` "returns the pair
`(intrinsic_matrix[0,0], intrinsic_matrix[1,1])`". -/
def PinholeCameraIntrinsic.GetFocalLength (c : PinholeCameraIntrinsic) :
    ℚ × ℚ :=
  (c.intrinsic_matrix_.a00, c.intrinsic_matrix_.a11)

/-- Modelled from the spec: `get_principal_point()` "returns the pair
`(intrinsic_matrix[0,2], intrinsic_matrix[1,2])`". -/
def PinholeCameraIntrinsic.GetPrincipalPoint (c : PinholeCameraIntrinsic) :
    ℚ × ℚ :=
  (c.intrinsic_matrix_.a02, c.intrinsic_matrix_.a12)

/-- Modelled from the spec: `get_skew()` "returns
`intrinsic_matrix[0,1]`". -/
def PinholeCameraIntrinsic.GetSkew (c : PinholeCameraIntrinsic) : ℚ :=
  c.intrinsic_matrix_.a01

/-- Modelled from the spec (and the binding docstring in the source:
"Returns True iff both the width and height are greater than 0"):
`is_valid()` "returns true iff both extents are > 0". -/
def PinholeCameraIntrinsic.IsValid (c : PinholeCameraIntrinsic) : Bool :=
  0 < c.width_ && 0 < c.height_

/-- Copy construction, bound by `bind_copy_functions` in the source: a
deep component-wise copy producing an independent value. -/
def PinholeCameraIntrinsic.copy (c : PinholeCameraIntrinsic) :
    PinholeCameraIntrinsic :=
  ⟨c.width_, c.height_, c.intrinsic_matrix_⟩

/-- Direct write of the `width` field, exposed read-write by the
bindings. -/
def PinholeCameraIntrinsic.setWidth (c : PinholeCameraIntrinsic) (w : ℤ) :
    PinholeCameraIntrinsic :=
  { c with width_ := w }

/-- Direct write of the `height` field, exposed read-write by the
bindings. -/
def PinholeCameraIntrinsic.setHeight (c : PinholeCameraIntrinsic)
    (h : ℤ) : PinholeCameraIntrinsic :=
  { c with height_ := h }

/-- Direct write of the `intrinsic_matrix` field, exposed read-write by
the bindings. -/
def PinholeCameraIntrinsic.setMatrix (c : PinholeCameraIntrinsic)
    (m : Mat3) : PinholeCameraIntrinsic :=
  { c with intrinsic_matrix_ := m }

/-- Embedded from the source `__repr__` lambda: the string
`"camera::PinholeCameraIntrinsic with width = " + to_string(width_) +
" and height = " + to_string(height_) +
".\nAccess intrinsics with intrinsic_matrix."`. -/
def PinholeCameraIntrinsic.reprString (c : PinholeCameraIntrinsic) :
    String :=
  "camera::PinholeCameraIntrinsic with width = " ++ toString c.width_ ++
    " and height = " ++ toString c.height_ ++
    ".\nAccess intrinsics with intrinsic_matrix."

/-- Modelled from the spec: `camera::PinholeCameraParameters` pairs "one
intrinsic with one 4×4 extrinsic"; its header is not in the snapshot, the
bindings expose `intrinsic_` and `extrinsic_` as read-write fields. -/
structure PinholeCameraParameters where
  intrinsic_ : PinholeCameraIntrinsic
  extrinsic_ : Mat4
deriving DecidableEq, Repr

/-- Modelled from the spec: default construction of
`PinholeCameraParameters` — "`intrinsic` is default-invalid; `extrinsic`
is the 4×4 identity". -/
def PinholeCameraParameters.default : PinholeCameraParameters :=
  ⟨PinholeCameraIntrinsic.default, Mat4.identity⟩

/-- The states of a `PinholeCameraIntrinsic` reachable through the public
surface the bindings expose: the default constructor, the 6-argument
constructor, preset construction, copy construction, `set_intrinsics`,
and direct writes of the three read-write fields. -/
inductive PinholeCameraIntrinsic.Reachable : PinholeCameraIntrinsic → Prop
  | dflt : PinholeCameraIntrinsic.Reachable PinholeCameraIntrinsic.default
  | mk6 (w h : ℤ) (fx fy cx cy : ℚ) :
      PinholeCameraIntrinsic.Reachable
        (PinholeCameraIntrinsic.mk6 w h fx fy cx cy)
  | preset (p : PinholeCameraIntrinsicParameters) :
      PinholeCameraIntrinsic.Reachable (PinholeCameraIntrinsic.fromPreset p)
  | copy (c : PinholeCameraIntrinsic) :
      PinholeCameraIntrinsic.Reachable c →
      PinholeCameraIntrinsic.Reachable c.copy
  | setIntr (c : PinholeCameraIntrinsic) (w h : ℤ) (fx fy cx cy : ℚ) :
      PinholeCameraIntrinsic.Reachable c →
      PinholeCameraIntrinsic.Reachable (c.SetIntrinsics w h fx fy cx cy)
  | setW (c : PinholeCameraIntrinsic) (w : ℤ) :
      PinholeCameraIntrinsic.Reachable c →
      PinholeCameraIntrinsic.Reachable (c.setWidth w)
  | setH (c : PinholeCameraIntrinsic) (h : ℤ) :
      PinholeCameraIntrinsic.Reachable c →
      PinholeCameraIntrinsic.Reachable (c.setHeight h)
  | setM (c : PinholeCameraIntrinsic) (m : Mat3) :
      PinholeCameraIntrinsic.Reachable c →
      PinholeCameraIntrinsic.Reachable (c.setMatrix m)

/-- The S6-style mutation step on a two-object store `(original, copy)`:
writing the `width` field of the second object. -/
def mutateCopyWidth (s : PinholeCameraIntrinsic × PinholeCameraIntrinsic)
    (w : ℤ) : PinholeCameraIntrinsic × PinholeCameraIntrinsic :=
  (s.1, s.2.setWidth w)

/-- Mutation step on a two-object store: writing the `height` field of
the second object. -/
def mutateCopyHeight (s : PinholeCameraIntrinsic × PinholeCameraIntrinsic)
    (h : ℤ) : PinholeCameraIntrinsic × PinholeCameraIntrinsic :=
  (s.1, s.2.setHeight h)

/-- Mutation step on a two-object store: writing the `intrinsic_matrix`
field of the second object. -/
def mutateCopyMatrix (s : PinholeCameraIntrinsic × PinholeCameraIntrinsic)
    (m : Mat3) : PinholeCameraIntrinsic × PinholeCameraIntrinsic :=
  (s.1, s.2.setMatrix m)

/-- C1 (counterexample): constructing from `Kinect2DepthCameraDefault`
does NOT yield fx = 254.878, fy = 205.395, cx = 365.456, cy = 365.456 as
the claim states: the preset's factory calibration has focal lengths
365.456 and principal point (254.878, 205.395); the claim transposes the
two pairs. -/
theorem C1_kinect2_depth_claimed_values_false :
    ¬ ((PinholeCameraIntrinsic.fromPreset .Kinect2DepthCameraDefault).width_ = 512 ∧
       (PinholeCameraIntrinsic.fromPreset .Kinect2DepthCameraDefault).height_ = 424 ∧
       (PinholeCameraIntrinsic.fromPreset .Kinect2DepthCameraDefault).GetFocalLength =
         ((254.878 : ℚ), (205.395 : ℚ)) ∧
       (PinholeCameraIntrinsic.fromPreset .Kinect2DepthCameraDefault).GetPrincipalPoint =
         ((365.456 : ℚ), (365.456 : ℚ))) := by
  simp only [PinholeCameraIntrinsic.fromPreset, PinholeCameraIntrinsic.mk6,
    PinholeCameraIntrinsic.SetIntrinsics, PinholeCameraIntrinsic.GetFocalLength,
    PinholeCameraIntrinsic.GetPrincipalPoint, Prod.mk.injEq, not_and]
  norm_num

/-- C1 (amended): constructing from `Kinect2DepthCameraDefault` yields
width = 512, height = 424, fx = 365.456, fy = 365.456, cx = 254.878,
cy = 205.395 — the published factory calibration of the reference
pinhole-camera library, as the spec's footnote requires. -/
theorem C1_kinect2_depth_preset :
    (PinholeCameraIntrinsic.fromPreset .Kinect2DepthCameraDefault).width_ = 512 ∧
    (PinholeCameraIntrinsic.fromPreset .Kinect2DepthCameraDefault).height_ = 424 ∧
    (PinholeCameraIntrinsic.fromPreset .Kinect2DepthCameraDefault).GetFocalLength =
      ((365.456 : ℚ), (365.456 : ℚ)) ∧
    (PinholeCameraIntrinsic.fromPreset .Kinect2DepthCameraDefault).GetPrincipalPoint =
      ((254.878 : ℚ), (205.395 : ℚ)) ∧
    (PinholeCameraIntrinsic.fromPreset .Kinect2DepthCameraDefault).GetSkew = 0 :=
  ⟨rfl, rfl, rfl, rfl, rfl⟩

/-- C2: constructing from `PrimeSenseDefault` yields exactly width = 640,
height = 480, fx = 525.0, fy = 525.0, cx = 319.5, cy = 239.5. -/
theorem C2_primesense_preset :
    (PinholeCameraIntrinsic.fromPreset .PrimeSenseDefault).width_ = 640 ∧
    (PinholeCameraIntrinsic.fromPreset .PrimeSenseDefault).height_ = 480 ∧
    (PinholeCameraIntrinsic.fromPreset .PrimeSenseDefault).GetFocalLength =
      ((525.0 : ℚ), (525.0 : ℚ)) ∧
    (PinholeCameraIntrinsic.fromPreset .PrimeSenseDefault).GetPrincipalPoint =
      ((319.5 : ℚ), (239.5 : ℚ)) :=
  ⟨rfl, rfl, rfl, rfl⟩

/-- C3: a default-constructed `PinholeCameraIntrinsic` has width = 0,
height = 0, intrinsic matrix equal to the 3×3 identity, and `is_valid()`
returns false. -/
theorem C3_default_intrinsic :
    PinholeCameraIntrinsic.default.width_ = 0 ∧
    PinholeCameraIntrinsic.default.height_ = 0 ∧
    PinholeCameraIntrinsic.default.intrinsic_matrix_ = Mat3.identity ∧
    PinholeCameraIntrinsic.default.IsValid = false :=
  ⟨rfl, rfl, rfl, rfl⟩

/-- C4: for every reachable state of a `PinholeCameraIntrinsic` (after
any sequence of constructions, `set_intrinsics` calls and direct field
writes), `is_valid()` returns true iff width > 0 and height > 0. -/
theorem C4_is_valid_iff (c : PinholeCameraIntrinsic)
    (hreach : c.Reachable) :
    c.IsValid = true ↔ (0 < c.width_ ∧ 0 < c.height_) := by
  simp [PinholeCameraIntrinsic.IsValid]

/-- C4 witness: the validity iff at the concrete reachable state built
from the PrimeSense preset, where both sides hold. -/
theorem C4_is_valid_iff_witness :
    ((PinholeCameraIntrinsic.fromPreset .PrimeSenseDefault).IsValid = true ↔
      (0 < (PinholeCameraIntrinsic.fromPreset .PrimeSenseDefault).width_ ∧
       0 < (PinholeCameraIntrinsic.fromPreset .PrimeSenseDefault).height_)) :=
  C4_is_valid_iff (PinholeCameraIntrinsic.fromPreset .PrimeSenseDefault)
    (PinholeCameraIntrinsic.Reachable.preset .PrimeSenseDefault)

/-- C5: every intrinsic built via the 6-argument constructor, via
`set_intrinsics`, or from a preset has matrix bottom row exactly
(0, 0, 1), entries (1,0), (2,0), (2,1) exactly 0, and skew entry (0,1)
exactly 0. -/
theorem C5_canonical_form :
    (∀ (w h : ℤ) (fx fy cx cy : ℚ),
      (PinholeCameraIntrinsic.mk6 w h fx fy cx cy).intrinsic_matrix_.a20 = 0 ∧
      (PinholeCameraIntrinsic.mk6 w h fx fy cx cy).intrinsic_matrix_.a21 = 0 ∧
      (PinholeCameraIntrinsic.mk6 w h fx fy cx cy).intrinsic_matrix_.a22 = 1 ∧
      (PinholeCameraIntrinsic.mk6 w h fx fy cx cy).intrinsic_matrix_.a10 = 0 ∧
      (PinholeCameraIntrinsic.mk6 w h fx fy cx cy).intrinsic_matrix_.a01 = 0) ∧
    (∀ (c : PinholeCameraIntrinsic) (w h : ℤ) (fx fy cx cy : ℚ),
      (c.SetIntrinsics w h fx fy cx cy).intrinsic_matrix_.a20 = 0 ∧
      (c.SetIntrinsics w h fx fy cx cy).intrinsic_matrix_.a21 = 0 ∧
      (c.SetIntrinsics w h fx fy cx cy).intrinsic_matrix_.a22 = 1 ∧
      (c.SetIntrinsics w h fx fy cx cy).intrinsic_matrix_.a10 = 0 ∧
      (c.SetIntrinsics w h fx fy cx cy).intrinsic_matrix_.a01 = 0) ∧
    (∀ p : PinholeCameraIntrinsicParameters,
      (PinholeCameraIntrinsic.fromPreset p).intrinsic_matrix_.a20 = 0 ∧
      (PinholeCameraIntrinsic.fromPreset p).intrinsic_matrix_.a21 = 0 ∧
      (PinholeCameraIntrinsic.fromPreset p).intrinsic_matrix_.a22 = 1 ∧
      (PinholeCameraIntrinsic.fromPreset p).intrinsic_matrix_.a10 = 0 ∧
      (PinholeCameraIntrinsic.fromPreset p).intrinsic_matrix_.a01 = 0) := by
  refine ⟨fun w h fx fy cx cy => ⟨rfl, rfl, rfl, rfl, rfl⟩,
          fun c w h fx fy cx cy => ⟨rfl, rfl, rfl, rfl, rfl⟩,
          fun p => ?_⟩
  cases p <;> exact ⟨rfl, rfl, rfl, rfl, rfl⟩

/-- C6: for every instance, `get_focal_length()` returns the pair
(M[0,0], M[1,1]), `get_principal_point()` returns (M[0,2], M[1,2]) and
`get_skew()` returns M[0,1]. -/
theorem C6_accessor_consistency (c : PinholeCameraIntrinsic) :
    c.GetFocalLength = (c.intrinsic_matrix_.a00, c.intrinsic_matrix_.a11) ∧
    c.GetPrincipalPoint = (c.intrinsic_matrix_.a02, c.intrinsic_matrix_.a12) ∧
    c.GetSkew = c.intrinsic_matrix_.a01 :=
  ⟨rfl, rfl, rfl⟩

/-- C7: the 6-argument constructor and `set_intrinsics` are total — on
every input, including non-positive extents and focal lengths, they
produce the canonical value (no error path exists in the model: both
return a plain `PinholeCameraIntrinsic`, never an `Option` or `Except`);
when width or height is non-positive, the result merely fails
`is_valid()`. -/
theorem C7_total_invalid_on_nonpositive (c : PinholeCameraIntrinsic)
    (w h : ℤ) (fx fy cx cy : ℚ) (hwh : w ≤ 0 ∨ h ≤ 0) :
    c.SetIntrinsics w h fx fy cx cy =
      ⟨w, h, ⟨fx, 0, cx, 0, fy, cy, 0, 0, 1⟩⟩ ∧
    PinholeCameraIntrinsic.mk6 w h fx fy cx cy =
      ⟨w, h, ⟨fx, 0, cx, 0, fy, cy, 0, 0, 1⟩⟩ ∧
    (c.SetIntrinsics w h fx fy cx cy).IsValid = false ∧
    (PinholeCameraIntrinsic.mk6 w h fx fy cx cy).IsValid = false := by
  have hfalse : (decide (0 < w) && decide (0 < h)) = false := by
    rcases hwh with hw | hh
    · simp [not_lt.mpr hw]
    · simp [not_lt.mpr hh]
  exact ⟨rfl, rfl, hfalse, hfalse⟩

/-- C7 witness: `set_intrinsics` and the 6-argument constructor at the
concrete non-positive extent (width = 0, height = 5, fx = -1). -/
theorem C7_total_invalid_witness :
    ((0 : ℤ) ≤ 0 ∨ (5 : ℤ) ≤ 0) ∧
    ((PinholeCameraIntrinsic.default.SetIntrinsics 0 5 (-1) 2 3 4 =
        ⟨0, 5, ⟨-1, 0, 3, 0, 2, 4, 0, 0, 1⟩⟩) ∧
     (PinholeCameraIntrinsic.mk6 0 5 (-1) 2 3 4 =
        ⟨0, 5, ⟨-1, 0, 3, 0, 2, 4, 0, 0, 1⟩⟩) ∧
     (PinholeCameraIntrinsic.default.SetIntrinsics 0 5 (-1) 2 3 4).IsValid = false ∧
     (PinholeCameraIntrinsic.mk6 0 5 (-1) 2 3 4).IsValid = false) :=
  ⟨Or.inl le_rfl,
   C7_total_invalid_on_nonpositive PinholeCameraIntrinsic.default
     0 5 (-1) 2 3 4 (Or.inl le_rfl)⟩

/-- C8: for every `a` and every `b` obtained by copying `a`, mutating any
field of `b` (width, height, or the matrix) leaves `a` unchanged; in
particular, in the S6 scenario (build p1 from `Kinect2ColorCameraDefault`,
copy it to p2, set p2.width := 0) p1.width is still 1920 and
p1.is_valid() is still true while p2.width is 0. -/
theorem C8_copy_independence :
    (∀ (a : PinholeCameraIntrinsic) (w : ℤ),
      (mutateCopyWidth (a, a.copy) w).1 = a) ∧
    (∀ (a : PinholeCameraIntrinsic) (h : ℤ),
      (mutateCopyHeight (a, a.copy) h).1 = a) ∧
    (∀ (a : PinholeCameraIntrinsic) (m : Mat3),
      (mutateCopyMatrix (a, a.copy) m).1 = a) ∧
    ((mutateCopyWidth
        (PinholeCameraIntrinsic.fromPreset .Kinect2ColorCameraDefault,
         (PinholeCameraIntrinsic.fromPreset .Kinect2ColorCameraDefault).copy)
        0).1.width_ = 1920 ∧
     (mutateCopyWidth
        (PinholeCameraIntrinsic.fromPreset .Kinect2ColorCameraDefault,
         (PinholeCameraIntrinsic.fromPreset .Kinect2ColorCameraDefault).copy)
        0).1.IsValid = true ∧
     (mutateCopyWidth
        (PinholeCameraIntrinsic.fromPreset .Kinect2ColorCameraDefault,
         (PinholeCameraIntrinsic.fromPreset .Kinect2ColorCameraDefault).copy)
        0).2.width_ = 0) :=
  ⟨fun _ _ => rfl, fun _ _ => rfl, fun _ _ => rfl, rfl, rfl, rfl⟩

/-- C9: a default-constructed `PinholeCameraParameters` has extrinsic
equal to the 4×4 identity matrix and an intrinsic on which `is_valid()`
returns false. -/
theorem C9_default_parameters :
    PinholeCameraParameters.default.extrinsic_ = Mat4.identity ∧
    PinholeCameraParameters.default.intrinsic_.IsValid = false :=
  ⟨rfl, rfl⟩

/-- C10: the string representation of a `PinholeCameraIntrinsic` is
determined solely by width and height — any two instances with equal
width and equal height, even with different intrinsic matrices, yield the
identical string, equal to the template
"camera::PinholeCameraIntrinsic with width = W and height = H.\nAccess
intrinsics with intrinsic_matrix." — and it renders for invalid instances
(the default-constructed, invalid instance included). -/
theorem C10_repr_width_height_only (c1 c2 : PinholeCameraIntrinsic)
    (hw : c1.width_ = c2.width_) (hh : c1.height_ = c2.height_) :
    c1.reprString = c2.reprString ∧
    c1.reprString =
      "camera::PinholeCameraIntrinsic with width = " ++ toString c1.width_ ++
        " and height = " ++ toString c1.height_ ++
        ".\nAccess intrinsics with intrinsic_matrix." ∧
    PinholeCameraIntrinsic.default.IsValid = false ∧
    PinholeCameraIntrinsic.default.reprString =
      "camera::PinholeCameraIntrinsic with width = 0 and height = 0.\nAccess intrinsics with intrinsic_matrix." :=
  ⟨by simp [PinholeCameraIntrinsic.reprString, hw, hh], rfl, rfl, rfl⟩

/-- C10 witness: two concrete instances with equal extents but different
intrinsic matrices (the PrimeSense preset and the same instance with its
matrix overwritten by the identity) have the identical representation
string. -/
theorem C10_repr_witness :
    (PinholeCameraIntrinsic.fromPreset .PrimeSenseDefault).width_ =
      ((PinholeCameraIntrinsic.fromPreset .PrimeSenseDefault).setMatrix
        Mat3.identity).width_ ∧
    (PinholeCameraIntrinsic.fromPreset .PrimeSenseDefault).height_ =
      ((PinholeCameraIntrinsic.fromPreset .PrimeSenseDefault).setMatrix
        Mat3.identity).height_ ∧
    (PinholeCameraIntrinsic.fromPreset .PrimeSenseDefault).reprString =
      ((PinholeCameraIntrinsic.fromPreset .PrimeSenseDefault).setMatrix
        Mat3.identity).reprString :=
  ⟨rfl, rfl,
   (C10_repr_width_height_only
      (PinholeCameraIntrinsic.fromPreset .PrimeSenseDefault)
      ((PinholeCameraIntrinsic.fromPreset .PrimeSenseDefault).setMatrix
        Mat3.identity) rfl rfl).1⟩

end Cupoch
